import Mathlib

/-!
Verification of the generated iOS color-token header
`examples/generate-styles/build/ios/StyleDictionaryColor.h` of the
design-token-toolkit repository.

The header declares the `NS_ENUM(NSInteger, StyleDictionaryColorName)`
enumeration of 41 color-token names together with the class interface
`StyleDictionaryColor` exposing `+ (NSArray *)values` and
`+ (UIColor *)color:(StyleDictionaryColorName)`.  Only the header is part
of the fragment; the implementation file behind the two accessors is not,
so those accessors are modelled from the specification's contract
(a total table lookup over the closed enumeration).
-/

/-- The enumeration `StyleDictionaryColorName`, one constructor per constant
of the `NS_ENUM` declaration, in the order of the header. -/
inductive StyleDictionaryColorName where
  | ColorsBlack
  | ColorsWhite
  | ColorsOrange100
  | ColorsOrange200
  | ColorsOrange300
  | ColorsOrange400
  | ColorsOrange500
  | ColorsOrange600
  | ColorsOrange700
  | ColorsOrange800
  | ColorsOrange900
  | ColorsTestPrimary50
  | ColorsTestPrimary100
  | ColorsTestPrimary200
  | ColorsTestPrimary300
  | ColorsTestPrimary400
  | ColorsTestPrimary500
  | ColorsTestPrimary600
  | ColorsTestPrimary700
  | ColorsTestPrimary800
  | ColorsTestPrimary900
  | ColorsTestSecondary50
  | ColorsTestSecondary100
  | ColorsTestSecondary200
  | ColorsTestSecondary300
  | ColorsTestSecondary400
  | ColorsTestSecondary500
  | ColorsTestSecondary600
  | ColorsTestSecondary700
  | ColorsTestSecondary800
  | ColorsTestSecondary900
  | ColorsTestNeutral50
  | ColorsTestNeutral100
  | ColorsTestNeutral200
  | ColorsTestNeutral300
  | ColorsTestNeutral400
  | ColorsTestNeutral500
  | ColorsTestNeutral600
  | ColorsTestNeutral700
  | ColorsTestNeutral800
  | ColorsTestNeutral900
deriving DecidableEq, Repr, Fintype

open StyleDictionaryColorName

/-- The `NSInteger` value the C compiler assigns to each enumeration
constant: no constant of the `NS_ENUM` carries an explicit initializer, so
C semantics assigns consecutive values starting at 0 in declaration
order. -/
def StyleDictionaryColorName.enumValue : StyleDictionaryColorName → Int
  | ColorsBlack => 0
  | ColorsWhite => 1
  | ColorsOrange100 => 2
  | ColorsOrange200 => 3
  | ColorsOrange300 => 4
  | ColorsOrange400 => 5
  | ColorsOrange500 => 6
  | ColorsOrange600 => 7
  | ColorsOrange700 => 8
  | ColorsOrange800 => 9
  | ColorsOrange900 => 10
  | ColorsTestPrimary50 => 11
  | ColorsTestPrimary100 => 12
  | ColorsTestPrimary200 => 13
  | ColorsTestPrimary300 => 14
  | ColorsTestPrimary400 => 15
  | ColorsTestPrimary500 => 16
  | ColorsTestPrimary600 => 17
  | ColorsTestPrimary700 => 18
  | ColorsTestPrimary800 => 19
  | ColorsTestPrimary900 => 20
  | ColorsTestSecondary50 => 21
  | ColorsTestSecondary100 => 22
  | ColorsTestSecondary200 => 23
  | ColorsTestSecondary300 => 24
  | ColorsTestSecondary400 => 25
  | ColorsTestSecondary500 => 26
  | ColorsTestSecondary600 => 27
  | ColorsTestSecondary700 => 28
  | ColorsTestSecondary800 => 29
  | ColorsTestSecondary900 => 30
  | ColorsTestNeutral50 => 31
  | ColorsTestNeutral100 => 32
  | ColorsTestNeutral200 => 33
  | ColorsTestNeutral300 => 34
  | ColorsTestNeutral400 => 35
  | ColorsTestNeutral500 => 36
  | ColorsTestNeutral600 => 37
  | ColorsTestNeutral700 => 38
  | ColorsTestNeutral800 => 39
  | ColorsTestNeutral900 => 40

/-- The enumeration constants in the order they are declared in the
header, lines 12 to 52 of `StyleDictionaryColor.h`. -/
def declarationOrder : List StyleDictionaryColorName :=
  [ColorsBlack, ColorsWhite,
   ColorsOrange100, ColorsOrange200, ColorsOrange300, ColorsOrange400,
   ColorsOrange500, ColorsOrange600, ColorsOrange700, ColorsOrange800,
   ColorsOrange900,
   ColorsTestPrimary50, ColorsTestPrimary100, ColorsTestPrimary200,
   ColorsTestPrimary300, ColorsTestPrimary400, ColorsTestPrimary500,
   ColorsTestPrimary600, ColorsTestPrimary700, ColorsTestPrimary800,
   ColorsTestPrimary900,
   ColorsTestSecondary50, ColorsTestSecondary100, ColorsTestSecondary200,
   ColorsTestSecondary300, ColorsTestSecondary400, ColorsTestSecondary500,
   ColorsTestSecondary600, ColorsTestSecondary700, ColorsTestSecondary800,
   ColorsTestSecondary900,
   ColorsTestNeutral50, ColorsTestNeutral100, ColorsTestNeutral200,
   ColorsTestNeutral300, ColorsTestNeutral400, ColorsTestNeutral500,
   ColorsTestNeutral600, ColorsTestNeutral700, ColorsTestNeutral800,
   ColorsTestNeutral900]

/-- Modelled from the spec: the implementation file behind
`+ (NSArray *)values` is not part of the fragment; the spec states that
`values()` "returns every token name in declaration order" and is a pure,
side-effect-free accessor. -/
def StyleDictionaryColor.values : List StyleDictionaryColorName :=
  declarationOrder

example : StyleDictionaryColor.values.length = 41 := by decide

/-- A platform color value, as RGBA components.  The spec leaves the
concrete representation to the platform; rational components pinned to the
conventional unit interval are enough to state the contract. -/
structure Color where
  r : ℚ
  g : ℚ
  b : ℚ
  a : ℚ
deriving DecidableEq, Repr

/-- Pure black, the color the spec says `resolve(Black)` returns. -/
def pureBlack : Color := ⟨0, 0, 0, 1⟩

/-- Pure white, the color the spec says `resolve(White)` returns. -/
def pureWhite : Color := ⟨1, 1, 1, 1⟩

/-- Modelled from the spec: the color each token denotes.  The fragment
pins only `Black` (pure black) and `White` (pure white); every other
token's concrete color is, per the spec, an external data dependency
supplied by the originating design tokens, here the argument `ext`. -/
def tokenColor (ext : StyleDictionaryColorName → Color) :
    StyleDictionaryColorName → Color
  | ColorsBlack => pureBlack
  | ColorsWhite => pureWhite
  | t => ext t

/-- Modelled from the spec: the name-to-color table, one entry per token
in declaration order, constructed once at load ("effectively a
compile-time constant table"). -/
def colorTable (ext : StyleDictionaryColorName → Color) : List Color :=
  StyleDictionaryColor.values.map (tokenColor ext)

/-- Modelled from the spec: the lookup accessor behind
`+ (UIColor *)color:` (called `resolve` by the spec), whose implementation
file is not part of the fragment.  The spec says it is "no algorithm
beyond table lookup", so it is modelled as indexing the constant table at
the token's `NSInteger` enumeration value; the lookup is fallible in
general (`Option`), and the contract is that the failure path is
unreachable. -/
def resolve (ext : StyleDictionaryColorName → Color)
    (name : StyleDictionaryColorName) : Option Color :=
  (colorTable ext).get? name.enumValue.toNat

/-- The lookup always lands inside the table and returns the token's
color: the enumeration values 0..40 are exactly the valid indices of the
41-entry declaration-order table. -/
theorem resolve_eq_tokenColor (ext : StyleDictionaryColorName → Color)
    (t : StyleDictionaryColorName) :
    resolve ext t = some (tokenColor ext t) := by
  cases t <;> rfl

/-- The runtime state of the generated module: the constant color table.
The spec's lifecycle says it is constructed once at load and never
mutated; the accessors are modelled as explicit state-passing functions so
that the absence of mutation is a theorem rather than a convention. -/
structure ModuleState where
  table : List Color
deriving DecidableEq, Repr

/-- The state at load: the table built from the external design-token
colors. -/
def initState (ext : StyleDictionaryColorName → Color) : ModuleState :=
  ⟨colorTable ext⟩

/-- Modelled from the spec: the `values` accessor as a state-passing
operation; it returns the token names in declaration order and touches no
state. -/
def valuesOp (s : ModuleState) :
    List StyleDictionaryColorName × ModuleState :=
  (StyleDictionaryColor.values, s)

/-- Modelled from the spec: the `color:` accessor as a state-passing
operation; it reads the table at the token's enumeration value and touches
no state. -/
def resolveOp (t : StyleDictionaryColorName) (s : ModuleState) :
    Option Color × ModuleState :=
  (s.table.get? t.enumValue.toNat, s)

/-- The pure lookup agrees with the state-passing one at the load-time
state. -/
theorem resolve_eq_resolveOp (ext : StyleDictionaryColorName → Color)
    (t : StyleDictionaryColorName) :
    resolve ext t = (resolveOp t (initState ext)).1 := rfl

/-- The palette families the token names decompose into: the two plain
colors and the four shade ladders. -/
inductive Family where
  | black
  | white
  | orange
  | testPrimary
  | testSecondary
  | testNeutral
deriving DecidableEq, Repr

/-- The family a token name belongs to, read off its identifier. -/
def familyOf : StyleDictionaryColorName → Family
  | ColorsBlack => .black
  | ColorsWhite => .white
  | ColorsOrange100 => .orange
  | ColorsOrange200 => .orange
  | ColorsOrange300 => .orange
  | ColorsOrange400 => .orange
  | ColorsOrange500 => .orange
  | ColorsOrange600 => .orange
  | ColorsOrange700 => .orange
  | ColorsOrange800 => .orange
  | ColorsOrange900 => .orange
  | ColorsTestPrimary50 => .testPrimary
  | ColorsTestPrimary100 => .testPrimary
  | ColorsTestPrimary200 => .testPrimary
  | ColorsTestPrimary300 => .testPrimary
  | ColorsTestPrimary400 => .testPrimary
  | ColorsTestPrimary500 => .testPrimary
  | ColorsTestPrimary600 => .testPrimary
  | ColorsTestPrimary700 => .testPrimary
  | ColorsTestPrimary800 => .testPrimary
  | ColorsTestPrimary900 => .testPrimary
  | ColorsTestSecondary50 => .testSecondary
  | ColorsTestSecondary100 => .testSecondary
  | ColorsTestSecondary200 => .testSecondary
  | ColorsTestSecondary300 => .testSecondary
  | ColorsTestSecondary400 => .testSecondary
  | ColorsTestSecondary500 => .testSecondary
  | ColorsTestSecondary600 => .testSecondary
  | ColorsTestSecondary700 => .testSecondary
  | ColorsTestSecondary800 => .testSecondary
  | ColorsTestSecondary900 => .testSecondary
  | ColorsTestNeutral50 => .testNeutral
  | ColorsTestNeutral100 => .testNeutral
  | ColorsTestNeutral200 => .testNeutral
  | ColorsTestNeutral300 => .testNeutral
  | ColorsTestNeutral400 => .testNeutral
  | ColorsTestNeutral500 => .testNeutral
  | ColorsTestNeutral600 => .testNeutral
  | ColorsTestNeutral700 => .testNeutral
  | ColorsTestNeutral800 => .testNeutral
  | ColorsTestNeutral900 => .testNeutral

/-- The numeric weight suffix of a token name, when it has one; `Black`
and `White` carry none. -/
def weightOf : StyleDictionaryColorName → Option Nat
  | ColorsBlack => none
  | ColorsWhite => none
  | ColorsOrange100 => some 100
  | ColorsOrange200 => some 200
  | ColorsOrange300 => some 300
  | ColorsOrange400 => some 400
  | ColorsOrange500 => some 500
  | ColorsOrange600 => some 600
  | ColorsOrange700 => some 700
  | ColorsOrange800 => some 800
  | ColorsOrange900 => some 900
  | ColorsTestPrimary50 => some 50
  | ColorsTestPrimary100 => some 100
  | ColorsTestPrimary200 => some 200
  | ColorsTestPrimary300 => some 300
  | ColorsTestPrimary400 => some 400
  | ColorsTestPrimary500 => some 500
  | ColorsTestPrimary600 => some 600
  | ColorsTestPrimary700 => some 700
  | ColorsTestPrimary800 => some 800
  | ColorsTestPrimary900 => some 900
  | ColorsTestSecondary50 => some 50
  | ColorsTestSecondary100 => some 100
  | ColorsTestSecondary200 => some 200
  | ColorsTestSecondary300 => some 300
  | ColorsTestSecondary400 => some 400
  | ColorsTestSecondary500 => some 500
  | ColorsTestSecondary600 => some 600
  | ColorsTestSecondary700 => some 700
  | ColorsTestSecondary800 => some 800
  | ColorsTestSecondary900 => some 900
  | ColorsTestNeutral50 => some 50
  | ColorsTestNeutral100 => some 100
  | ColorsTestNeutral200 => some 200
  | ColorsTestNeutral300 => some 300
  | ColorsTestNeutral400 => some 400
  | ColorsTestNeutral500 => some 500
  | ColorsTestNeutral600 => some 600
  | ColorsTestNeutral700 => some 700
  | ColorsTestNeutral800 => some 800
  | ColorsTestNeutral900 => some 900

/-- The weight suffixes of a family's tokens, in declaration order. -/
def ladderWeights (f : Family) : List Nat :=
  StyleDictionaryColor.values.filterMap fun t =>
    if familyOf t = f then weightOf t else none

/-- The four shade-ladder families. -/
def ladderFamilies : List Family :=
  [.orange, .testPrimary, .testSecondary, .testNeutral]

/-- The full weight scale of the token set, 50 then the hundreds; a
ladder "with no gaps" is a contiguous suffix of this scale. -/
def fullScale : List Nat :=
  [50, 100, 200, 300, 400, 500, 600, 700, 800, 900]

/-- The token of the orange family carrying the mid-point weight of that
family's ordered ladder, if any. -/
def orangeMidToken : Option StyleDictionaryColorName :=
  StyleDictionaryColor.values.find? fun t =>
    (familyOf t == Family.orange) &&
      (weightOf t == (ladderWeights .orange).get? ((ladderWeights .orange).length / 2))

/-- C1: the lookup accessor (`resolve`, realized as `+color:`) is a total
function over the closed enumeration `StyleDictionaryColorName`: every
valid token name yields exactly one color, the failure path of the table
lookup is unreachable, and for every token in the sequence returned by
`values()` the lookup succeeds with a defined color. -/
theorem C1_resolve_total (ext : StyleDictionaryColorName → Color) :
    (∀ t : StyleDictionaryColorName, ∃! c : Color, resolve ext t = some c) ∧
    ∀ t ∈ StyleDictionaryColor.values, resolve ext t ≠ none := by
  constructor
  · intro t
    refine ⟨tokenColor ext t, resolve_eq_tokenColor ext t, fun c hc => ?_⟩
    rw [resolve_eq_tokenColor] at hc
    exact (Option.some.inj hc).symm
  · intro t _ h
    rw [resolve_eq_tokenColor] at h
    exact Option.some_ne_none _ h

/-- Witness for C1 at a concrete external color assignment and token. -/
theorem C1_resolve_total_witness :
    resolve (fun _ => pureWhite) ColorsOrange300 ≠ none :=
  (C1_resolve_total (fun _ => pureWhite)).2 ColorsOrange300 (by decide)

/-- C2: `values()` returns every token name of the closed set in
declaration order (beginning with `ColorsBlack`, `ColorsWhite`,
`ColorsOrange100` and ending with `ColorsTestNeutral900`), the sequence is
finite, and two calls return identical sequences with no side effects. -/
theorem C2_values_declaration_order :
    StyleDictionaryColor.values.map StyleDictionaryColorName.enumValue =
      (List.range 41).map Int.ofNat ∧
    (∀ t : StyleDictionaryColorName, t ∈ StyleDictionaryColor.values) ∧
    StyleDictionaryColor.values.take 3 =
      [ColorsBlack, ColorsWhite, ColorsOrange100] ∧
    StyleDictionaryColor.values.getLast? = some ColorsTestNeutral900 ∧
    StyleDictionaryColor.values.length = 41 ∧
    ∀ s : ModuleState,
      (valuesOp s).1 = (valuesOp ((valuesOp s).2)).1 ∧ (valuesOp s).2 = s :=
  ⟨by decide, by decide, by decide, by decide, by decide, fun _ => ⟨rfl, rfl⟩⟩

/-- Counterexample for C3 as stated: the sequence returned by `values()`
does not have 42 distinct entries. -/
theorem C3_counterexample :
    ¬ (StyleDictionaryColor.values.dedup.length = 42) := by decide

/-- C3 amended: the number of distinct names in the sequence returned by
`values()` equals the number of declared tokens, namely exactly 41 entries
matching the enumerated list. -/
theorem C3_values_count :
    StyleDictionaryColor.values.dedup.length = 41 ∧
    StyleDictionaryColor.values.Nodup ∧
    StyleDictionaryColor.values.length = 41 ∧
    Fintype.card StyleDictionaryColorName = 41 :=
  ⟨by decide, by decide, by decide, by decide⟩

/-- C4: token names are unique within the set and the set is closed: the
accessors never insert or remove a token, so the set observable through
`values()` and resolvable through `resolve` is fixed for the whole
execution. -/
theorem C4_closed_unique :
    StyleDictionaryColor.values.Nodup ∧
    (∀ t : StyleDictionaryColorName, t ∈ StyleDictionaryColor.values) ∧
    ∀ (s : ModuleState) (t : StyleDictionaryColorName),
      (valuesOp s).2 = s ∧ (resolveOp t s).2 = s ∧
      (valuesOp ((resolveOp t s).2)).1 = (valuesOp s).1 :=
  ⟨by decide, by decide, fun _ _ => ⟨rfl, rfl, rfl⟩⟩

/-- C5: every ladder family among Orange, TestPrimary, TestSecondary and
TestNeutral has strictly increasing weight suffixes with no duplicates and
no gaps: the weights are either the full 50/100/…/900 scale or the
100/…/900 scale. -/
theorem C5_ladders_monotone :
    ∀ f ∈ ladderFamilies,
      (ladderWeights f).Sorted (· < ·) ∧ (ladderWeights f).Nodup ∧
      (ladderWeights f = fullScale ∨ ladderWeights f = fullScale.drop 1) := by
  decide

/-- Witness for C5 at the orange family. -/
theorem C5_ladders_monotone_witness :
    (ladderWeights .orange).Sorted (· < ·) ∧ (ladderWeights .orange).Nodup ∧
    (ladderWeights .orange = fullScale ∨
      ladderWeights .orange = fullScale.drop 1) :=
  C5_ladders_monotone .orange (by decide)

/-- C6: `resolve(ColorsBlack)` returns pure black, `resolve(ColorsWhite)`
returns pure white, and `resolve(ColorsOrange500)` returns the mid-point
shade of the orange ladder as supplied by the originating design
tokens. -/
theorem C6_concrete_colors (ext : StyleDictionaryColorName → Color) :
    resolve ext ColorsBlack = some pureBlack ∧
    resolve ext ColorsWhite = some pureWhite ∧
    orangeMidToken = some ColorsOrange500 ∧
    resolve ext ColorsOrange500 = some (ext ColorsOrange500) :=
  ⟨rfl, rfl, by decide, rfl⟩

/-- Witness for C6 at a concrete external color assignment. -/
theorem C6_concrete_colors_witness :
    resolve (fun _ => pureWhite) ColorsBlack = some pureBlack ∧
    resolve (fun _ => pureWhite) ColorsWhite = some pureWhite ∧
    orangeMidToken = some ColorsOrange500 ∧
    resolve (fun _ => pureWhite) ColorsOrange500 =
      some ((fun _ => pureWhite) ColorsOrange500) :=
  C6_concrete_colors (fun _ => pureWhite)

/-- C7: the name-to-color table is constructed once at load and is
read-only thereafter: neither accessor mutates the state, and the mapping
observed through `resolve` is identical before and after any call to
either accessor. -/
theorem C7_table_read_only (ext : StyleDictionaryColorName → Color)
    (s : ModuleState) (t : StyleDictionaryColorName) :
    (valuesOp s).2 = s ∧
    (resolveOp t s).2 = s ∧
    (∀ u, (resolveOp u ((valuesOp s).2)).1 = (resolveOp u s).1) ∧
    (∀ u, (resolveOp u ((resolveOp t s).2)).1 = (resolveOp u s).1) ∧
    (initState ext).table = colorTable ext :=
  ⟨rfl, rfl, fun _ => rfl, fun _ => rfl, rfl⟩

/-- Witness for C7 at the load-time state of a concrete assignment. -/
theorem C7_table_read_only_witness :
    (valuesOp (initState fun _ => pureBlack)).2 = initState (fun _ => pureBlack) ∧
    (resolveOp ColorsWhite (initState fun _ => pureBlack)).2 =
      initState (fun _ => pureBlack) ∧
    (∀ u, (resolveOp u ((valuesOp (initState fun _ => pureBlack)).2)).1 =
      (resolveOp u (initState fun _ => pureBlack)).1) ∧
    (∀ u, (resolveOp u
        ((resolveOp ColorsWhite (initState fun _ => pureBlack)).2)).1 =
      (resolveOp u (initState fun _ => pureBlack)).1) ∧
    (initState fun _ => pureBlack).table = colorTable (fun _ => pureBlack) :=
  C7_table_read_only (fun _ => pureBlack) (initState fun _ => pureBlack)
    ColorsWhite

/-- C8: the enumeration constants of `StyleDictionaryColorName` receive
consecutive `NSInteger` values starting at 0 (`ColorsBlack = 0` through
`ColorsTestNeutral900 = 40`), so declaration order coincides with numeric
order and every value is distinct and in the range 0..40. -/
theorem C8_enum_values_consecutive :
    StyleDictionaryColorName.enumValue ColorsBlack = 0 ∧
    StyleDictionaryColorName.enumValue ColorsTestNeutral900 = 40 ∧
    declarationOrder.map StyleDictionaryColorName.enumValue =
      (List.range 41).map Int.ofNat ∧
    (∀ t : StyleDictionaryColorName, 0 ≤ t.enumValue ∧ t.enumValue ≤ 40) ∧
    Function.Injective StyleDictionaryColorName.enumValue :=
  ⟨by decide, by decide, by decide, by decide, by decide⟩

/-- C9: the ladder families are not uniform: the Orange family has exactly
the nine weights 100 through 900 and no 50 weight, while TestPrimary,
TestSecondary and TestNeutral each have exactly the ten weights 50 through
900 including 50. -/
theorem C9_ladder_ranges :
    ladderWeights .orange = [100, 200, 300, 400, 500, 600, 700, 800, 900] ∧
    50 ∉ ladderWeights .orange ∧
    ladderWeights .testPrimary = fullScale ∧
    ladderWeights .testSecondary = fullScale ∧
    ladderWeights .testNeutral = fullScale ∧
    50 ∈ ladderWeights .testPrimary ∧
    50 ∈ ladderWeights .testSecondary ∧
    50 ∈ ladderWeights .testNeutral := by
  decide

/-- C10: `resolve` is deterministic: for every valid name, two invocations
on that name — back to back in one run, or in two runs starting from the
same load-time state — return the same color value. -/
theorem C10_resolve_deterministic (ext : StyleDictionaryColorName → Color)
    (t : StyleDictionaryColorName) :
    (resolveOp t (initState ext)).1 =
      (resolveOp t ((resolveOp t (initState ext)).2)).1 ∧
    ∀ s s2 : ModuleState, s = initState ext → s2 = initState ext →
      (resolveOp t s).1 = (resolveOp t s2).1 := by
  refine ⟨rfl, ?_⟩
  rintro s s2 rfl rfl
  rfl

/-- Witness for C10 at a concrete assignment and token, with both run
states instantiated to the load-time state. -/
theorem C10_resolve_deterministic_witness :
    (resolveOp ColorsOrange500 (initState fun _ => pureBlack)).1 =
      (resolveOp ColorsOrange500
        ((resolveOp ColorsOrange500 (initState fun _ => pureBlack)).2)).1 ∧
    (resolveOp ColorsOrange500 (initState fun _ => pureBlack)).1 =
      (resolveOp ColorsOrange500 (initState fun _ => pureBlack)).1 :=
  ⟨(C10_resolve_deterministic (fun _ => pureBlack) ColorsOrange500).1,
   (C10_resolve_deterministic (fun _ => pureBlack) ColorsOrange500).2
     (initState fun _ => pureBlack) (initState fun _ => pureBlack) rfl rfl⟩
